import Mathlib

/-!
# OpenGL-Roguelike: the shader helper and the application loop

A shallow embedding of `OpenGL Roguelike/main.cpp` and
`OpenGL Roguelike/Header Files/Shader.h`.

The program is straight-line glue over GLFW / GLAD / OpenGL.  Every call into
those libraries (and every statement written to `std::cout`) is recorded as a
`Call`; a run of a function is the list of calls it issues, in program order.
Whatever the libraries answer (handles, status words, info logs, key state,
file contents) is a parameter of the run.
-/

namespace Roguelike

/-! ## Calls into the libraries -/

/-- Value of a C++ `float` literal, taken as the number written in the source.
Rounding to binary32 is not modelled; the vertex data (0, 0.5, 1) is exact. -/
abbrev GLfloat := ℚ

/-- The two arguments `glCreateShader` is called with. -/
inductive ShaderType
  | GL_VERTEX_SHADER
  | GL_FRAGMENT_SHADER
  deriving DecidableEq, Repr

/-- The window hints set by `main`. -/
inductive WindowHint
  | GLFW_CONTEXT_VERSION_MAJOR
  | GLFW_CONTEXT_VERSION_MINOR
  | GLFW_OPENGL_PROFILE
  deriving DecidableEq, Repr

/-- Values passed to `glfwWindowHint`. -/
inductive HintValue
  | int (n : Int)
  | GLFW_OPENGL_CORE_PROFILE
  deriving DecidableEq, Repr

/-- One call into GLFW, GLAD, OpenGL or `std::cout`, with its arguments.
Handles (`unsigned int`, `GLFWwindow*`) are natural numbers.  A statement
`std::cout << a << b << std::endl` is `cout [a, b, "\n"]`. -/
inductive Call
  | cout (items : List String)
  -- shader objects
  | glCreateShader (type : ShaderType)
  | glShaderSource (shader : Nat) (count : Nat) (strings : List String)
  | glCompileShader (shader : Nat)
  | glGetShaderiv_COMPILE_STATUS (shader : Nat)
  | glGetShaderInfoLog (shader : Nat) (maxLength : Nat)
  | glCreateProgram
  | glAttachShader (program shader : Nat)
  | glLinkProgram (program : Nat)
  | glGetProgramiv_LINK_STATUS (program : Nat)
  | glGetProgramInfoLog (program : Nat) (maxLength : Nat)
  | glDeleteShader (shader : Nat)
  | glUseProgram (program : Nat)
  | glDeleteProgram (program : Nat)
  -- window and context
  | glfwInit
  | glfwWindowHint (hint : WindowHint) (value : HintValue)
  | glfwCreateWindow (width height : Nat) (title : String)
  | glfwTerminate
  | glfwMakeContextCurrent (window : Nat)
  | glfwSetFramebufferSizeCallback (window : Nat)
  | gladLoadGLLoader
  -- geometry
  | glGenVertexArrays (n : Nat)
  | glGenBuffers (n : Nat)
  | glBindVertexArray (array : Nat)
  | glBindBuffer_ARRAY_BUFFER (buffer : Nat)
  | glBufferData_ARRAY_BUFFER_STATIC_DRAW (size : Nat) (data : List GLfloat)
  | glVertexAttribPointer_FLOAT (index size stride pointer : Nat)
  | glEnableVertexAttribArray (index : Nat)
  | glDeleteVertexArrays (n : Nat) (arrays : List Nat)
  | glDeleteBuffers (n : Nat) (buffers : List Nat)
  -- frame
  | glfwWindowShouldClose (window : Nat)
  | glfwGetKey_ESCAPE (window : Nat)
  | glfwSetWindowShouldClose (window : Nat) (value : Bool)
  | glClearColor (r g b a : GLfloat)
  | glClear_COLOR_BUFFER_BIT
  | glDrawArrays_TRIANGLES (first count : Nat)
  | glfwSwapBuffers (window : Nat)
  | glfwPollEvents
  | glViewport (x y width height : Int)
  deriving DecidableEq

/-! ## What the driver answers while a program is built -/

/-- Answers of the GL driver during one compile/link sequence: the names it
hands out, the status words it writes into `success`, and its info logs. -/
structure GLDriver where
  /-- result of `glCreateShader(GL_VERTEX_SHADER)` -/
  vertexShader : Nat
  /-- result of `glCreateShader(GL_FRAGMENT_SHADER)` -/
  fragmentShader : Nat
  /-- result of `glCreateProgram()` -/
  program : Nat
  /-- `GL_COMPILE_STATUS` of the vertex stage (0 is `GL_FALSE`) -/
  vertexCompileStatus : Int
  /-- `GL_COMPILE_STATUS` of the fragment stage -/
  fragmentCompileStatus : Int
  /-- `GL_LINK_STATUS` of the program -/
  linkStatus : Int
  vertexInfoLog : String
  fragmentInfoLog : String
  programInfoLog : String

/-- The characters of a `const char*`: everything before the first NUL. -/
def c_str (s : String) : String :=
  ⟨s.data.takeWhile (fun c => c != Char.ofNat 0)⟩

/-- What `glGet*InfoLog(obj, bufSize, NULL, infoLog)` leaves in `infoLog` as a
C string: at most `bufSize - 1` characters of the driver's log. -/
def infoLogText (bufSize : Nat) (log : String) : String :=
  ⟨(c_str log).data.take (bufSize - 1)⟩

/-! ## `Shader.h` -/

/-- What a path refers to, as seen through `std::ifstream`: either the file
cannot be opened, or it opens and holds `contents`.  `readError` is `none` when
its stream buffer can be read up to the end of the stream, and `some n` when
reading fails after `n` characters (0 for a path that opens but cannot be read
at all, such as a directory); `closeFails` says whether `close()` sets
`failbit`. -/
inductive FileState
  | cannotOpen
  | opens (contents : String) (readError : Option Nat) (closeFails : Bool)
  deriving DecidableEq

/-- What `stream << file.rdbuf()` inserts into the string stream: the characters
the stream buffer delivers before it fails or ends.  A read failure is reported
as `failbit` of the string stream, whose exception mask is empty, and leaves the
state of the `ifstream` alone: nothing is thrown. -/
def rdbufYield (contents : String) (readError : Option Nat) : String :=
  match readError with
  | none => contents
  | some n => ⟨contents.data.take n⟩

/-- The exception `std::ifstream::failure`, raised by a stream whose
`exceptions()` mask is `failbit | badbit`. -/
inductive IfstreamFailure
  | failure
  deriving DecidableEq

/-- Class `Shader`: the program ID. -/
structure Shader where
  ID : Nat
  deriving DecidableEq

/-- The body of the `try` block of the constructor (Shader.h 29-46).  It ends
either with the two strings it assigns to `vertexCode` and `fragmentCode`, or
with the exception thrown by `open` or `close`; both assignments are the last
two statements of the block. -/
def Shader.tryBlock (fs : String → FileState) (vertexPath fragmentPath : String) :
    Except IfstreamFailure (String × String) :=
  -- vShaderFile.open(vertexPath);
  match fs vertexPath with
  | .cannotOpen => .error .failure
  | .opens vText vReadError vCloseFails =>
    -- fShaderFile.open(fragmentPath);
    match fs fragmentPath with
    | .cannotOpen => .error .failure
    | .opens fText fReadError fCloseFails =>
      -- vShaderStream << vShaderFile.rdbuf(); fShaderStream << fShaderFile.rdbuf();
      let vShaderStream := rdbufYield vText vReadError
      let fShaderStream := rdbufYield fText fReadError
      -- vShaderFile.close(); fShaderFile.close();
      if vCloseFails then .error .failure
      else if fCloseFails then .error .failure
      else
        -- vertexCode = vShaderStream.str(); fragmentCode = fShaderStream.str();
        .ok (vShaderStream, fShaderStream)

/-- Source loading of the constructor (Shader.h 20-49): the values of
`vertexCode` and `fragmentCode` after the `try`/`catch`, and what was printed. -/
def Shader.loadSources (fs : String → FileState) (vertexPath fragmentPath : String) :
    (String × String) × List Call :=
  -- std::string vertexCode; std::string fragmentCode;
  let vertexCode := ""
  let fragmentCode := ""
  match Shader.tryBlock fs vertexPath fragmentPath with
  | .ok (v, f) => ((v, f), [])
  | .error .failure =>
    ((vertexCode, fragmentCode),
      [Call.cout ["ERROR::SHADER::FILE_NOT_SUCCESFULLY_LOADED", "\n"]])

/-- Compile and link steps of the constructor (Shader.h 51-99). -/
def Shader.build (vertexCode fragmentCode : String) (drv : GLDriver) : Shader × List Call :=
  let vShaderCode := c_str vertexCode
  let fShaderCode := c_str fragmentCode
  -- vertex shader
  let vertex := drv.vertexShader
  let t1 := [Call.glCreateShader .GL_VERTEX_SHADER,
             Call.glShaderSource vertex 1 [vShaderCode],
             Call.glCompileShader vertex,
             Call.glGetShaderiv_COMPILE_STATUS vertex]
  let success := drv.vertexCompileStatus
  let t2 := if success = 0 then
      [Call.glGetShaderInfoLog vertex 512,
       Call.cout ["ERROR::SHADER::VERTEX::COMPILATION_FAILED\n",
                  infoLogText 512 drv.vertexInfoLog, "\n"]]
    else []
  -- fragment shader
  let fragment := drv.fragmentShader
  let t3 := [Call.glCreateShader .GL_FRAGMENT_SHADER,
             Call.glShaderSource fragment 1 [fShaderCode],
             Call.glCompileShader fragment,
             Call.glGetShaderiv_COMPILE_STATUS fragment]
  let success := drv.fragmentCompileStatus
  let t4 := if success = 0 then
      [Call.glGetShaderInfoLog fragment 512,
       Call.cout ["ERROR::SHADER::FRAGMENT::COMPILATION_FAILED\n",
                  infoLogText 512 drv.fragmentInfoLog, "\n"]]
    else []
  -- shader program
  let ID := drv.program
  let t5 := [Call.glCreateProgram,
             Call.glAttachShader ID vertex,
             Call.glAttachShader ID fragment,
             Call.glLinkProgram ID,
             Call.glGetProgramiv_LINK_STATUS ID]
  let success := drv.linkStatus
  let t6 := if success = 0 then
      [Call.glGetProgramInfoLog ID 512,
       Call.cout ["ERROR::SHADER::PROGRAM::LINKING_FAILED\n",
                  infoLogText 512 drv.programInfoLog, "\n"]]
    else []
  -- delete shaders
  let t7 := [Call.glDeleteShader vertex, Call.glDeleteShader fragment]
  ({ ID := ID }, t1 ++ t2 ++ t3 ++ t4 ++ t5 ++ t6 ++ t7)

/-- The constructor `Shader(const char* vertexPath, const char* fragmentPath)`:
the object it leaves and the calls it issues. -/
def Shader.ctor (fs : String → FileState) (vertexPath fragmentPath : String)
    (drv : GLDriver) : Shader × List Call :=
  let loaded := Shader.loadSources fs vertexPath fragmentPath
  let built := Shader.build loaded.1.1 loaded.1.2 drv
  (built.1, loaded.2 ++ built.2)

/-- `Shader::use`. -/
def Shader.use (self : Shader) : List Call :=
  [Call.glUseProgram self.ID]

/-! ## `main.cpp` -/

def SCR_WIDTH : Nat := 800

def SCR_HEIGHT : Nat := 600

/-- The literal `vertexShaderSource`, with its explicit trailing NUL. -/
def vertexShaderSource : String :=
  "#version 330 core\n" ++
  "layout (location = 0) in vec3 aPos;\n" ++
  "layout (location = 1) in vec3 aColor;\n" ++
  "out vec3 ourColor;\n" ++
  "void main()\n" ++
  "\x7b\n" ++
  "   gl_Position = vec4(aPos, 1.0);\n" ++
  "   ourColor = aColor;" ++
  "\x7d\x00"

/-- The literal `fragmentShaderSource`, with its explicit trailing NUL. -/
def fragmentShaderSource : String :=
  "#version 330 core\n" ++
  "out vec4 FragColor;\n" ++
  "in vec3 ourColor;\n" ++
  "void main()\n" ++
  "\x7b\n" ++
  "   FragColor = vec4(ourColor, 1.0);\n" ++
  "\x7d\n\x00"

/-- Number of bytes of a `float`, the value of `sizeof(float)`. -/
def sizeof_float : Nat := 4

/-- The array `vertices` of `main` (main.cpp 130-135). -/
def vertices : List GLfloat :=
  [ 1/2, -1/2, 0,   1, 0, 0,
   -1/2, -1/2, 0,   0, 1, 0,
    0,    1/2, 0,   0, 0, 1 ]

/-- What the user and the window system do during one iteration of the render
loop. -/
structure FrameInput where
  /-- `glfwGetKey(window, GLFW_KEY_ESCAPE) == GLFW_PRESS` inside `processInput` -/
  escapePressed : Bool
  /-- a close request for the window is delivered during `glfwPollEvents` -/
  closeRequested : Bool
  /-- framebuffer size changes delivered during `glfwPollEvents` -/
  resizes : List (Int × Int)

/-- Everything outside the program that a run of `main` depends on. -/
structure Env where
  /-- result of `glfwCreateWindow`; `none` is `NULL` -/
  window : Option Nat
  /-- whether `gladLoadGLLoader` returns non-zero -/
  gladLoaded : Bool
  driver : GLDriver
  /-- the name `glGenVertexArrays` writes into `VAO` -/
  VAO : Nat
  /-- the name `glGenBuffers` writes into `VBO` -/
  VBO : Nat
  /-- the indeterminate value of the local `EBO`, which is declared and never
  assigned (`glGenBuffers(1, &EBO)` is commented out) -/
  EBO : Nat
  /-- the inputs of the successive loop iterations, as far as observed -/
  frames : List FrameInput

/-- The compile/link code of `main` (main.cpp 60-106), for the source texts the
two global pointers refer to; the result is `shaderProgram`. -/
def main.shaderSection (vertexShaderSource fragmentShaderSource : String) (drv : GLDriver) :
    Nat × List Call :=
  -- vertex shader compilation
  let vertexShader := drv.vertexShader
  let t1 := [Call.glCreateShader .GL_VERTEX_SHADER,
             Call.glShaderSource vertexShader 1 [c_str vertexShaderSource],
             Call.glCompileShader vertexShader,
             Call.glGetShaderiv_COMPILE_STATUS vertexShader]
  let success := drv.vertexCompileStatus
  let t2 := if success = 0 then
      [Call.glGetShaderInfoLog vertexShader 512,
       Call.cout ["ERROR::SHADER::VERTEX::COMPILATION_FAILED\n",
                  infoLogText 512 drv.vertexInfoLog, "\n"]]
    else []
  -- fragment shader compilation
  let fragmentShader := drv.fragmentShader
  let t3 := [Call.glCreateShader .GL_FRAGMENT_SHADER,
             Call.glShaderSource fragmentShader 1 [c_str fragmentShaderSource],
             Call.glCompileShader fragmentShader,
             Call.glGetShaderiv_COMPILE_STATUS fragmentShader]
  let success := drv.fragmentCompileStatus
  let t4 := if success = 0 then
      [Call.glGetShaderInfoLog fragmentShader 512,
       Call.cout ["ERROR::SHADER::FRAGMENT::COMPILATION_FAILED\n",
                  infoLogText 512 drv.fragmentInfoLog, "\n"]]
    else []
  -- shader program
  let shaderProgram := drv.program
  let t5 := [Call.glCreateProgram,
             Call.glAttachShader shaderProgram vertexShader,
             Call.glAttachShader shaderProgram fragmentShader,
             Call.glLinkProgram shaderProgram,
             Call.glGetProgramiv_LINK_STATUS shaderProgram]
  let success := drv.linkStatus
  let t6 := if success = 0 then
      [Call.glGetProgramInfoLog shaderProgram 512,
       Call.cout ["ERROR::SHADER::PROGRAM::LINKER_FAILED\n",
                  infoLogText 512 drv.programInfoLog, "\n"]]
    else []
  let t7 := [Call.glDeleteShader vertexShader, Call.glDeleteShader fragmentShader]
  (shaderProgram, t1 ++ t2 ++ t3 ++ t4 ++ t5 ++ t6 ++ t7)

/-- Buffer upload and attribute setup of `main` (main.cpp 140-159). -/
def main.geometrySection (VAO VBO : Nat) : List Call :=
  [ Call.glGenVertexArrays 1,
    Call.glGenBuffers 1,
    Call.glBindVertexArray VAO,
    Call.glBindBuffer_ARRAY_BUFFER VBO,
    Call.glBufferData_ARRAY_BUFFER_STATIC_DRAW (vertices.length * sizeof_float) vertices,
    Call.glVertexAttribPointer_FLOAT 0 3 (6 * sizeof_float) 0,
    Call.glEnableVertexAttribArray 0,
    Call.glVertexAttribPointer_FLOAT 1 3 (6 * sizeof_float) (3 * sizeof_float),
    Call.glEnableVertexAttribArray 1 ]

/-- A statement of the loop body: from the window's close flag before it to the
flag after it and the calls it issues. -/
abbrev Stmt := Bool → Bool × List Call

/-- A library call that leaves the close flag alone. -/
def Stmt.call (c : Call) : Stmt :=
  fun shouldClose => (shouldClose, [c])

/-- The function `processInput` (main.cpp 207-211); `pressed` is the answer of
`glfwGetKey`. -/
def processInput (window : Nat) (pressed : Bool) : Stmt :=
  fun shouldClose =>
    if pressed then
      (true, [Call.glfwGetKey_ESCAPE window, Call.glfwSetWindowShouldClose window true])
    else
      (shouldClose, [Call.glfwGetKey_ESCAPE window])

/-- The function `framebuffer_size_callback` (main.cpp 213-216). -/
def framebuffer_size_callback (_window : Nat) (width height : Int) : List Call :=
  [Call.glViewport 0 0 width height]

/-- The call `glfwPollEvents()`: GLFW raises the close flag when a close request
is pending and runs the registered framebuffer-size callback for every size
change. -/
def glfwPollEvents (window : Nat) (fr : FrameInput) : Stmt :=
  fun shouldClose =>
    (shouldClose || fr.closeRequested,
     Call.glfwPollEvents ::
       fr.resizes.flatMap (fun wh => framebuffer_size_callback window wh.1 wh.2))

/-- The statements of the body of the render loop (main.cpp 168-195). -/
def main.loopBody (window shaderProgram VAO : Nat) (fr : FrameInput) : List Stmt :=
  [ processInput window fr.escapePressed,
    Stmt.call (Call.glClearColor (2/10) (3/10) (3/10) 1),
    Stmt.call Call.glClear_COLOR_BUFFER_BIT,
    Stmt.call (Call.glUseProgram shaderProgram),
    Stmt.call (Call.glBindVertexArray VAO),
    Stmt.call (Call.glDrawArrays_TRIANGLES 0 3),
    Stmt.call (Call.glfwSwapBuffers window),
    glfwPollEvents window fr ]

/-- Run statements one after the other. -/
def runStmts : List Stmt → Stmt
  | [], shouldClose => (shouldClose, [])
  | s :: rest, shouldClose =>
    let r := s shouldClose
    let r2 := runStmts rest r.1
    (r2.1, r.2 ++ r2.2)

/-- The loop `while (!glfwWindowShouldClose(window)) { ... }` (main.cpp 167-196),
started with the given close flag.  Each iteration consumes one `FrameInput`;
the result is `none` when the inputs run out while the flag is still false. -/
def main.renderLoop (window shaderProgram VAO : Nat) : List FrameInput → Bool → Option (List Call)
  | [], shouldClose =>
    if shouldClose then some [Call.glfwWindowShouldClose window] else none
  | fr :: rest, shouldClose =>
    if shouldClose then some [Call.glfwWindowShouldClose window]
    else
      let r := runStmts (main.loopBody window shaderProgram VAO fr) shouldClose
      match main.renderLoop window shaderProgram VAO rest r.1 with
      | none => none
      | some t => some (Call.glfwWindowShouldClose window :: r.2 ++ t)

/-- The function `main`: its return value and the calls it issues, or `none`
when the render loop has not ended after the inputs in `env.frames`. -/
def main (env : Env) : Option (Int × List Call) :=
  let t0 := [Call.glfwInit,
             Call.glfwWindowHint .GLFW_CONTEXT_VERSION_MAJOR (.int 3),
             Call.glfwWindowHint .GLFW_CONTEXT_VERSION_MINOR (.int 3),
             Call.glfwWindowHint .GLFW_OPENGL_PROFILE .GLFW_OPENGL_CORE_PROFILE,
             Call.glfwCreateWindow SCR_WIDTH SCR_HEIGHT "LearnOpenGL"]
  match env.window with
  | none =>
    some (-1, t0 ++ [Call.cout ["Failed to create GLFW window", "\n"], Call.glfwTerminate])
  | some window =>
    let t1 := [Call.glfwMakeContextCurrent window,
               Call.glfwSetFramebufferSizeCallback window,
               Call.gladLoadGLLoader]
    if !env.gladLoaded then
      some (-1, t0 ++ t1 ++ [Call.cout ["Failed to initialize GLAD", "\n"]])
    else
      let shaders := main.shaderSection vertexShaderSource fragmentShaderSource env.driver
      let shaderProgram := shaders.1
      let t3 := main.geometrySection env.VAO env.VBO
      -- a freshly created window has its close flag cleared
      match main.renderLoop window shaderProgram env.VAO env.frames false with
      | none => none
      | some t4 =>
        some (0, t0 ++ t1 ++ shaders.2 ++ t3 ++ t4 ++
          [Call.glDeleteVertexArrays 1 [env.VAO],
           Call.glDeleteBuffers 1 [env.VBO],
           Call.glDeleteBuffers 1 [env.EBO],
           Call.glDeleteProgram shaderProgram,
           Call.glfwTerminate])

/-! ## Reading a run -/

/-- A diagnostic with the given heading: a `cout` statement whose first item is
that text. -/
def Call.isDiagnostic (heading : String) : Call → Bool
  | .cout (h :: _) => h == heading
  | _ => false

/-- Statements printed to `std::cout`. -/
def Call.isCout : Call → Bool
  | .cout _ => true
  | _ => false

/-- Info-log queries, issued only on a failure path. -/
def Call.isInfoLogQuery : Call → Bool
  | .glGetShaderInfoLog _ _ => true
  | .glGetProgramInfoLog _ _ => true
  | _ => false

/-- The calls of a run that are neither output nor info-log queries. -/
def steps (t : List Call) : List Call :=
  t.filter (fun c => !c.isCout && !c.isInfoLogQuery)

/-- The calls of a run into the graphics and window libraries (no output). -/
def glCalls (t : List Call) : List Call :=
  t.filter (fun c => !c.isCout)

/-- Calls that release an object. -/
def Call.isDelete : Call → Bool
  | .glDeleteShader _ => true
  | .glDeleteProgram _ => true
  | .glDeleteVertexArrays _ _ => true
  | .glDeleteBuffers _ _ => true
  | _ => false

/-- Calls that generate object names into a variable of `main`. -/
def Call.isGen : Call → Bool
  | .glGenVertexArrays _ => true
  | .glGenBuffers _ => true
  | _ => false

/-- The source strings passed to `glShaderSource`, per shader object. -/
def shaderSources (t : List Call) : List (Nat × List String) :=
  t.filterMap (fun c => match c with
    | .glShaderSource sh _ strs => some (sh, strs)
    | _ => none)

/-- The startup failure messages of `main`. -/
def Call.isStartupFailure (c : Call) : Bool :=
  c.isDiagnostic "Failed to create GLFW window" || c.isDiagnostic "Failed to initialize GLAD"

/-! ## Vertex fetch -/

/-- One generic vertex attribute array, as set by `glVertexAttribPointer` with
type `GL_FLOAT`: `size` components per vertex, `stride` bytes between vertices,
first component at byte `pointer` of the bound buffer. -/
structure VertexAttrib where
  index : Nat
  size : Nat
  stride : Nat
  pointer : Nat
  deriving DecidableEq, Repr

/-- The attribute arrays a run sets up and enables. -/
def enabledAttribs (t : List Call) : List VertexAttrib :=
  (t.filterMap (fun c => match c with
    | .glVertexAttribPointer_FLOAT i n st p => some ⟨i, n, st, p⟩
    | _ => none)).filter (fun a => decide (Call.glEnableVertexAttribArray a.index ∈ t))

/-- The data store a run uploads: its size in bytes and its floats. -/
def uploadedBuffers (t : List Call) : List (Nat × List GLfloat) :=
  t.filterMap (fun c => match c with
    | .glBufferData_ARRAY_BUFFER_STATIC_DRAW sz d => some (sz, d)
    | _ => none)

/-- The `(first, count)` arguments of the draw calls of a run. -/
def drawCalls (t : List Call) : List (Nat × Nat) :=
  t.filterMap (fun c => match c with
    | .glDrawArrays_TRIANGLES f n => some (f, n)
    | _ => none)

/-- Byte offsets, in the buffer, of the components of attribute `a` for vertex
`i` (the OpenGL addressing rule: `pointer + stride * i + k * sizeof(float)`). -/
def VertexAttrib.componentOffsets (a : VertexAttrib) (i : Nat) : List Nat :=
  (List.range a.size).map (fun k => a.pointer + a.stride * i + k * sizeof_float)

/-- Read the float stored at byte offset `b` of a data store of `size` bytes;
`none` when the read is misaligned or leaves the store. -/
def readFloat (size : Nat) (data : List GLfloat) (b : Nat) : Option GLfloat :=
  if b % sizeof_float = 0 ∧ b + sizeof_float ≤ size then data[b / sizeof_float]? else none

/-- The value of attribute `a` for vertex `i`. -/
def fetchAttrib (size : Nat) (data : List GLfloat) (a : VertexAttrib) (i : Nat) :
    Option (List GLfloat) :=
  (a.componentOffsets i).mapM (readFloat size data)

/-- The attribute values fetched by `glDrawArrays(mode, first, count)`: for each
of the vertices `first .. first + count - 1`, the value of every attribute. -/
def drawArraysFetch (first count : Nat) (attribs : List VertexAttrib)
    (size : Nat) (data : List GLfloat) : List (List (Option (List GLfloat))) :=
  (List.range count).map (fun k => attribs.map (fun a => fetchAttrib size data a (first + k)))

/-! ## Concrete inputs -/

/-- A file system in which no path can be opened. -/
def noFiles : String → FileState := fun _ => .cannotOpen

/-- A driver that names the objects 1, 2, 3 and reports every status as 0. -/
def failingDriver : GLDriver :=
  { vertexShader := 1, fragmentShader := 2, program := 3,
    vertexCompileStatus := 0, fragmentCompileStatus := 0, linkStatus := 0,
    vertexInfoLog := "0:1: unexpected token", fragmentInfoLog := "0:1: unexpected token",
    programInfoLog := "link error" }

/-- A file system with a readable vertex shader and no fragment shader. -/
def onlyVertexFile : String → FileState := fun path =>
  if path = "shader.vs" then .opens "void main() \x7b\x7d" none false else .cannotOpen

/-- A file system in which the vertex path opens but cannot be read at all,
although the file is not empty, next to a readable fragment shader. -/
def unreadableVertexFile : String → FileState := fun path =>
  if path = "shader.vs" then .opens "void main() \x7b\x7d" (some 0) false
  else .opens "out vec4 c; void main() \x7b\x7d" none false

/-- A file system whose vertex shader holds a NUL character after `void`, next
to a readable fragment shader. -/
def nulVertexFile : String → FileState := fun path =>
  if path = "shader.vs" then .opens "void\x00main() \x7b\x7d" none false
  else .opens "out vec4 c; void main() \x7b\x7d" none false

/-- A driver that names the objects 1, 2, 3 and reports every status as 1. -/
def workingDriver : GLDriver :=
  { vertexShader := 1, fragmentShader := 2, program := 3,
    vertexCompileStatus := 1, fragmentCompileStatus := 1, linkStatus := 1,
    vertexInfoLog := "", fragmentInfoLog := "", programInfoLog := "" }

/-- A frame in which escape is held down. -/
def escapeFrame : FrameInput :=
  { escapePressed := true, closeRequested := false, resizes := [] }

/-- A frame in which nothing happens. -/
def idleFrame : FrameInput :=
  { escapePressed := false, closeRequested := false, resizes := [] }

/-- A run in which startup succeeds, one idle frame is drawn and escape is
pressed in the second frame.  The uninitialised `EBO` holds 0xCCCCCCCC. -/
def escapeRun : Env :=
  { window := some 7, gladLoaded := true, driver := workingDriver,
    VAO := 1, VBO := 1, EBO := 3435973836,
    frames := [idleFrame, escapeFrame] }

/-- The same run, with the uninitialised `EBO` holding the value 1, which is
also the name of the vertex buffer. -/
def aliasedRun : Env :=
  { escapeRun with EBO := 1 }

/-! ## The shader helper -/

theorem loadSources_calls (fs : String → FileState) (vp fp : String) :
    (Shader.loadSources fs vp fp).2 = [] ∨
    (Shader.loadSources fs vp fp).2 =
      [Call.cout ["ERROR::SHADER::FILE_NOT_SUCCESFULLY_LOADED", "\n"]] := by
  unfold Shader.loadSources
  cases h : Shader.tryBlock fs vp fp with
  | ok v => simp
  | error e => cases e; simp

/-- C2. For every outcome of the two compilations and of the link, and whatever
the files are, the constructor yields an object whose ID is the handle returned
by glCreateProgram; it prints the VERTEX diagnostic once when the vertex compile
status is 0 and never otherwise, likewise the FRAGMENT diagnostic for the
fragment status and the PROGRAM diagnostic for the link status; and the calls
other than output and info-log queries are always the same full sequence, so no
failure skips a later step. -/
theorem C2_ctor_diagnostics (fs : String → FileState) (vp fp : String) (drv : GLDriver) :
    (Shader.ctor fs vp fp drv).1.ID = drv.program ∧
    ((Shader.ctor fs vp fp drv).2.filter
        (Call.isDiagnostic "ERROR::SHADER::VERTEX::COMPILATION_FAILED\n")).length
      = (if drv.vertexCompileStatus = 0 then 1 else 0) ∧
    ((Shader.ctor fs vp fp drv).2.filter
        (Call.isDiagnostic "ERROR::SHADER::FRAGMENT::COMPILATION_FAILED\n")).length
      = (if drv.fragmentCompileStatus = 0 then 1 else 0) ∧
    ((Shader.ctor fs vp fp drv).2.filter
        (Call.isDiagnostic "ERROR::SHADER::PROGRAM::LINKING_FAILED\n")).length
      = (if drv.linkStatus = 0 then 1 else 0) ∧
    steps (Shader.ctor fs vp fp drv).2 =
      [ Call.glCreateShader .GL_VERTEX_SHADER,
        Call.glShaderSource drv.vertexShader 1 [c_str (Shader.loadSources fs vp fp).1.1],
        Call.glCompileShader drv.vertexShader,
        Call.glGetShaderiv_COMPILE_STATUS drv.vertexShader,
        Call.glCreateShader .GL_FRAGMENT_SHADER,
        Call.glShaderSource drv.fragmentShader 1 [c_str (Shader.loadSources fs vp fp).1.2],
        Call.glCompileShader drv.fragmentShader,
        Call.glGetShaderiv_COMPILE_STATUS drv.fragmentShader,
        Call.glCreateProgram,
        Call.glAttachShader drv.program drv.vertexShader,
        Call.glAttachShader drv.program drv.fragmentShader,
        Call.glLinkProgram drv.program,
        Call.glGetProgramiv_LINK_STATUS drv.program,
        Call.glDeleteShader drv.vertexShader,
        Call.glDeleteShader drv.fragmentShader ] := by
  refine ⟨rfl, ?_, ?_, ?_, ?_⟩ <;>
  · rcases loadSources_calls fs vp fp with h | h <;>
    by_cases hv : drv.vertexCompileStatus = 0 <;>
    by_cases hf : drv.fragmentCompileStatus = 0 <;>
    by_cases hl : drv.linkStatus = 0 <;>
    simp [Shader.ctor, Shader.build, steps, Call.isDiagnostic, Call.isCout,
      Call.isInfoLogQuery, h, hv, hf, hl, List.filter_cons]

/-- C3. For every outcome of the two compilations and of the link, the release
calls of the constructor are exactly glDeleteShader on the vertex handle and
then glDeleteShader on the fragment handle, one call each; both come after
glLinkProgram (no release call precedes it); and glDeleteProgram is never
called. -/
theorem C3_ctor_deletes_stages (fs : String → FileState) (vp fp : String) (drv : GLDriver) :
    (Shader.ctor fs vp fp drv).2.filter Call.isDelete =
      [Call.glDeleteShader drv.vertexShader, Call.glDeleteShader drv.fragmentShader] ∧
    (∃ pre post, (Shader.ctor fs vp fp drv).2 = pre ++ Call.glLinkProgram drv.program :: post ∧
      pre.filter Call.isDelete = [] ∧
      post.filter Call.isDelete =
        [Call.glDeleteShader drv.vertexShader, Call.glDeleteShader drv.fragmentShader]) ∧
    (∀ p, Call.glDeleteProgram p ∉ (Shader.ctor fs vp fp drv).2) := by
  refine ⟨?_, ?_, ?_⟩
  · rcases loadSources_calls fs vp fp with h | h <;>
    by_cases hv : drv.vertexCompileStatus = 0 <;>
    by_cases hf : drv.fragmentCompileStatus = 0 <;>
    by_cases hl : drv.linkStatus = 0 <;>
    simp [Shader.ctor, Shader.build, Call.isDelete, h, hv, hf, hl, List.filter_cons]
  · refine ⟨(Shader.loadSources fs vp fp).2 ++
        ([Call.glCreateShader .GL_VERTEX_SHADER,
          Call.glShaderSource drv.vertexShader 1 [c_str (Shader.loadSources fs vp fp).1.1],
          Call.glCompileShader drv.vertexShader,
          Call.glGetShaderiv_COMPILE_STATUS drv.vertexShader] ++
         (if drv.vertexCompileStatus = 0 then
            [Call.glGetShaderInfoLog drv.vertexShader 512,
             Call.cout ["ERROR::SHADER::VERTEX::COMPILATION_FAILED\n",
                        infoLogText 512 drv.vertexInfoLog, "\n"]]
          else []) ++
         [Call.glCreateShader .GL_FRAGMENT_SHADER,
          Call.glShaderSource drv.fragmentShader 1 [c_str (Shader.loadSources fs vp fp).1.2],
          Call.glCompileShader drv.fragmentShader,
          Call.glGetShaderiv_COMPILE_STATUS drv.fragmentShader] ++
         (if drv.fragmentCompileStatus = 0 then
            [Call.glGetShaderInfoLog drv.fragmentShader 512,
             Call.cout ["ERROR::SHADER::FRAGMENT::COMPILATION_FAILED\n",
                        infoLogText 512 drv.fragmentInfoLog, "\n"]]
          else []) ++
         [Call.glCreateProgram,
          Call.glAttachShader drv.program drv.vertexShader,
          Call.glAttachShader drv.program drv.fragmentShader]),
        [Call.glGetProgramiv_LINK_STATUS drv.program] ++
         (if drv.linkStatus = 0 then
            [Call.glGetProgramInfoLog drv.program 512,
             Call.cout ["ERROR::SHADER::PROGRAM::LINKING_FAILED\n",
                        infoLogText 512 drv.programInfoLog, "\n"]]
          else []) ++
         [Call.glDeleteShader drv.vertexShader, Call.glDeleteShader drv.fragmentShader],
        ?_, ?_, ?_⟩
    · simp [Shader.ctor, Shader.build]
    · rcases loadSources_calls fs vp fp with h | h <;>
      by_cases hv : drv.vertexCompileStatus = 0 <;>
      by_cases hf : drv.fragmentCompileStatus = 0 <;>
      simp [Call.isDelete, h, hv, hf, List.filter_cons]
    · by_cases hl : drv.linkStatus = 0 <;>
      simp [Call.isDelete, hl, List.filter_cons]
  · intro p
    rcases loadSources_calls fs vp fp with h | h <;>
    by_cases hv : drv.vertexCompileStatus = 0 <;>
    by_cases hf : drv.fragmentCompileStatus = 0 <;>
    by_cases hl : drv.linkStatus = 0 <;>
    simp [Shader.ctor, Shader.build, h, hv, hf, hl]

theorem tryBlock_cannotOpen (fs : String → FileState) (vp fp : String)
    (h : fs vp = .cannotOpen ∨ fs fp = .cannotOpen) :
    Shader.tryBlock fs vp fp = .error .failure := by
  unfold Shader.tryBlock
  rcases h with h | h
  · simp [h]
  · cases hv : fs vp with
    | cannotOpen => simp
    | opens vText ve vc => simp [h]

/-- C4. For every pair of paths, if the vertex file or the fragment file cannot
be opened, the try block ends with the stream failure, the constructor catches
it and prints the file-load diagnostic exactly once, the source string of a file
that failed to open is empty, and the constructor goes on with the complete
compile and link code on the loaded strings and yields its object. -/
theorem C4_open_failure_caught (fs : String → FileState) (vp fp : String) (drv : GLDriver)
    (h : fs vp = .cannotOpen ∨ fs fp = .cannotOpen) :
    Shader.tryBlock fs vp fp = .error .failure ∧
    ((Shader.ctor fs vp fp drv).2.filter
        (Call.isDiagnostic "ERROR::SHADER::FILE_NOT_SUCCESFULLY_LOADED")).length = 1 ∧
    (fs vp = .cannotOpen → (Shader.loadSources fs vp fp).1.1 = "") ∧
    (fs fp = .cannotOpen → (Shader.loadSources fs vp fp).1.2 = "") ∧
    (Shader.ctor fs vp fp drv).2 =
      Call.cout ["ERROR::SHADER::FILE_NOT_SUCCESFULLY_LOADED", "\n"] ::
        (Shader.build (Shader.loadSources fs vp fp).1.1 (Shader.loadSources fs vp fp).1.2 drv).2 ∧
    Call.glCompileShader drv.vertexShader ∈ (Shader.ctor fs vp fp drv).2 ∧
    Call.glCompileShader drv.fragmentShader ∈ (Shader.ctor fs vp fp drv).2 ∧
    Call.glLinkProgram drv.program ∈ (Shader.ctor fs vp fp drv).2 ∧
    (Shader.ctor fs vp fp drv).1.ID = drv.program := by
  have ht := tryBlock_cannotOpen fs vp fp h
  have hl : Shader.loadSources fs vp fp =
      (("", ""), [Call.cout ["ERROR::SHADER::FILE_NOT_SUCCESFULLY_LOADED", "\n"]]) := by
    simp [Shader.loadSources, ht]
  refine ⟨ht, ?_, ?_, ?_, ?_, ?_, ?_, ?_, rfl⟩
  · by_cases hv : drv.vertexCompileStatus = 0 <;>
    by_cases hf : drv.fragmentCompileStatus = 0 <;>
    by_cases hk : drv.linkStatus = 0 <;>
    simp [Shader.ctor, Shader.build, Call.isDiagnostic, hl, hv, hf, hk, List.filter_cons]
  · intro _; simp [hl]
  · intro _; simp [hl]
  · simp [Shader.ctor, hl]
  · simp [Shader.ctor, Shader.build]
  · simp [Shader.ctor, Shader.build]
  · simp [Shader.ctor, Shader.build]

/-- Witness for C4: with no file openable, the constructor prints the file-load
diagnostic once. -/
theorem C4_open_failure_caught_witness :
    (noFiles "shader.vs" = .cannotOpen ∨ noFiles "shader.fs" = .cannotOpen) ∧
    ((Shader.ctor noFiles "shader.vs" "shader.fs" failingDriver).2.filter
        (Call.isDiagnostic "ERROR::SHADER::FILE_NOT_SUCCESFULLY_LOADED")).length = 1 :=
  ⟨Or.inl rfl,
   (C4_open_failure_caught noFiles "shader.vs" "shader.fs" failingDriver (Or.inl rfl)).2.1⟩

theorem c_str_of_no_nul (s : String) (h : Char.ofNat 0 ∉ s.data) : c_str s = s := by
  have key : ∀ l : List Char, Char.ofNat 0 ∉ l →
      l.takeWhile (fun c => c != Char.ofNat 0) = l := by
    intro l
    induction l with
    | nil => intro _; rfl
    | cons a l ih =>
      intro hl
      have ha : a ≠ Char.ofNat 0 := fun e => hl (by rw [e]; exact List.mem_cons_self _ _)
      have hl2 : Char.ofNat 0 ∉ l := fun m => hl (List.mem_cons_of_mem _ m)
      simp [List.takeWhile_cons, ha, ih hl2]
  unfold c_str
  rw [key s.data h]

/-- C10 (as stated, refuted). The vertex path opens but cannot be read and the
fragment file is read in full: glShaderSource receives the empty string for the
vertex stage and the whole fragment text for the fragment stage, and no
file-load diagnostic is printed; the two strings are neither both the files'
contents nor both empty.  Likewise a vertex file with a NUL character reaches
glShaderSource cut at the NUL, neither in full nor empty. -/
theorem C10_not_all_or_nothing :
    (unreadableVertexFile "shader.vs" = .opens "void main() \x7b\x7d" (some 0) false ∧
     unreadableVertexFile "shader.fs" = .opens "out vec4 c; void main() \x7b\x7d" none false ∧
     shaderSources (Shader.ctor unreadableVertexFile "shader.vs" "shader.fs" workingDriver).2 =
       [(1, [""]), (2, ["out vec4 c; void main() \x7b\x7d"])] ∧
     (Shader.ctor unreadableVertexFile "shader.vs" "shader.fs" workingDriver).2.filter
       (Call.isDiagnostic "ERROR::SHADER::FILE_NOT_SUCCESFULLY_LOADED") = [] ∧
     ¬ (shaderSources (Shader.ctor unreadableVertexFile "shader.vs" "shader.fs" workingDriver).2 =
          [(1, ["void main() \x7b\x7d"]), (2, ["out vec4 c; void main() \x7b\x7d"])] ∨
        shaderSources (Shader.ctor unreadableVertexFile "shader.vs" "shader.fs" workingDriver).2 =
          [(1, [""]), (2, [""])])) ∧
    (nulVertexFile "shader.vs" = .opens "void\x00main() \x7b\x7d" none false ∧
     nulVertexFile "shader.fs" = .opens "out vec4 c; void main() \x7b\x7d" none false ∧
     shaderSources (Shader.ctor nulVertexFile "shader.vs" "shader.fs" workingDriver).2 =
       [(1, ["void"]), (2, ["out vec4 c; void main() \x7b\x7d"])] ∧
     ¬ (shaderSources (Shader.ctor nulVertexFile "shader.vs" "shader.fs" workingDriver).2 =
          [(1, ["void\x00main() \x7b\x7d"]), (2, ["out vec4 c; void main() \x7b\x7d"])] ∨
        shaderSources (Shader.ctor nulVertexFile "shader.vs" "shader.fs" workingDriver).2 =
          [(1, [""]), (2, [""])])) := by
  have h1 : shaderSources
      (Shader.ctor unreadableVertexFile "shader.vs" "shader.fs" workingDriver).2 =
      [(1, [""]), (2, ["out vec4 c; void main() \x7b\x7d"])] := by decide
  have h2 : shaderSources (Shader.ctor nulVertexFile "shader.vs" "shader.fs" workingDriver).2 =
      [(1, ["void"]), (2, ["out vec4 c; void main() \x7b\x7d"])] := by decide
  refine ⟨⟨by decide, by decide, h1, by decide, ?_⟩, ⟨by decide, by decide, h2, ?_⟩⟩
  · rw [h1]; decide
  · rw [h2]; decide

/-- C10 (amended). Source loading is all-or-nothing with respect to the
failures the two `ifstream`s raise.  When both files open and close without
failure, `vertexCode` and `fragmentCode` are the characters read from the two
files, which are the full contents when both reads reach the end of the file;
in every other case both strings are empty and the file-load diagnostic is
printed once, in particular when one of the two files cannot be opened and the
other one is readable.  A read that fails is not detected: no diagnostic is
printed for it.  glShaderSource receives each of the two strings up to its
first NUL, and so the full contents of two files that open, read and close
without error and hold no NUL. -/
theorem C10_sources_loaded (fs : String → FileState) (vp fp : String) (drv : GLDriver) :
    (∀ vText vErr fText fErr, fs vp = .opens vText vErr false → fs fp = .opens fText fErr false →
      (Shader.loadSources fs vp fp).1 = (rdbufYield vText vErr, rdbufYield fText fErr) ∧
      (Shader.ctor fs vp fp drv).2.filter
        (Call.isDiagnostic "ERROR::SHADER::FILE_NOT_SUCCESFULLY_LOADED") = []) ∧
    (∀ vText fText, fs vp = .opens vText none false → fs fp = .opens fText none false →
      (Shader.loadSources fs vp fp).1 = (vText, fText)) ∧
    ((¬ ∃ vText vErr fText fErr,
        fs vp = .opens vText vErr false ∧ fs fp = .opens fText fErr false) →
      (Shader.loadSources fs vp fp).1 = ("", "") ∧
      ((Shader.ctor fs vp fp drv).2.filter
        (Call.isDiagnostic "ERROR::SHADER::FILE_NOT_SUCCESFULLY_LOADED")).length = 1) ∧
    (fs vp = .cannotOpen ∨ fs fp = .cannotOpen → (Shader.loadSources fs vp fp).1 = ("", "")) ∧
    shaderSources (Shader.ctor fs vp fp drv).2 =
      [(drv.vertexShader, [c_str (Shader.loadSources fs vp fp).1.1]),
       (drv.fragmentShader, [c_str (Shader.loadSources fs vp fp).1.2])] ∧
    (∀ vText fText, fs vp = .opens vText none false → fs fp = .opens fText none false →
      Char.ofNat 0 ∉ vText.data → Char.ofNat 0 ∉ fText.data →
      shaderSources (Shader.ctor fs vp fp drv).2 =
        [(drv.vertexShader, [vText]), (drv.fragmentShader, [fText])]) := by
  have hsrc : shaderSources (Shader.ctor fs vp fp drv).2 =
      [(drv.vertexShader, [c_str (Shader.loadSources fs vp fp).1.1]),
       (drv.fragmentShader, [c_str (Shader.loadSources fs vp fp).1.2])] := by
    rcases loadSources_calls fs vp fp with h | h <;>
    by_cases hv : drv.vertexCompileStatus = 0 <;>
    by_cases hf : drv.fragmentCompileStatus = 0 <;>
    by_cases hl : drv.linkStatus = 0 <;>
    simp [Shader.ctor, Shader.build, shaderSources, h, hv, hf, hl, List.filterMap_cons]
  have hdiag : ∀ t : List Call, (Shader.loadSources fs vp fp).2 = t →
      (Shader.ctor fs vp fp drv).2.filter
          (Call.isDiagnostic "ERROR::SHADER::FILE_NOT_SUCCESFULLY_LOADED") =
        t.filter (Call.isDiagnostic "ERROR::SHADER::FILE_NOT_SUCCESFULLY_LOADED") := by
    intro t ht
    by_cases hv : drv.vertexCompileStatus = 0 <;>
    by_cases hf : drv.fragmentCompileStatus = 0 <;>
    by_cases hl : drv.linkStatus = 0 <;>
    simp [Shader.ctor, Shader.build, Call.isDiagnostic, ht, hv, hf, hl, List.filter_cons]
  have hfail : Shader.tryBlock fs vp fp = .error .failure →
      (Shader.loadSources fs vp fp).1 = ("", "") ∧
      ((Shader.ctor fs vp fp drv).2.filter
        (Call.isDiagnostic "ERROR::SHADER::FILE_NOT_SUCCESFULLY_LOADED")).length = 1 := by
    intro ht
    have hl : Shader.loadSources fs vp fp =
        (("", ""), [Call.cout ["ERROR::SHADER::FILE_NOT_SUCCESFULLY_LOADED", "\n"]]) := by
      simp [Shader.loadSources, ht]
    refine ⟨by rw [hl], ?_⟩
    rw [hdiag _ (by rw [hl])]
    simp [Call.isDiagnostic]
  refine ⟨?_, ?_, ?_, ?_, hsrc, ?_⟩
  · intro vText vErr fText fErr hv hf
    have hl : Shader.loadSources fs vp fp =
        ((rdbufYield vText vErr, rdbufYield fText fErr), []) := by
      simp [Shader.loadSources, Shader.tryBlock, hv, hf]
    refine ⟨by rw [hl], ?_⟩
    rw [hdiag _ (by rw [hl])]
    rfl
  · intro vText fText hv hf
    simp [Shader.loadSources, Shader.tryBlock, rdbufYield, hv, hf]
  · intro hno
    apply hfail
    cases hv : fs vp with
    | cannotOpen => simp [Shader.tryBlock, hv]
    | opens vText ve vc =>
      cases hf : fs fp with
      | cannotOpen => simp [Shader.tryBlock, hv, hf]
      | opens fText fe fc =>
        cases vc <;> cases fc <;>
          first
          | (exfalso; exact hno ⟨vText, ve, fText, fe, hv, hf⟩)
          | simp [Shader.tryBlock, hv, hf]
  · intro h
    exact (hfail (tryBlock_cannotOpen fs vp fp h)).1
  · intro vText fText hv hf hnv hnf
    have hl : (Shader.loadSources fs vp fp).1 = (vText, fText) := by
      simp [Shader.loadSources, Shader.tryBlock, rdbufYield, hv, hf]
    rw [hsrc, hl, c_str_of_no_nul vText hnv, c_str_of_no_nul fText hnf]

/-- Witness for C10: a readable vertex file next to a missing fragment file
leaves both source strings empty. -/
theorem C10_sources_loaded_witness :
    onlyVertexFile "shader.vs" = .opens "void main() \x7b\x7d" none false ∧
    onlyVertexFile "shader.fs" = .cannotOpen ∧
    (Shader.loadSources onlyVertexFile "shader.vs" "shader.fs").1 = ("", "") :=
  ⟨by simp [onlyVertexFile], by simp [onlyVertexFile],
   (C10_sources_loaded onlyVertexFile "shader.vs" "shader.fs" failingDriver).2.2.2.1
     (Or.inr (by simp [onlyVertexFile]))⟩

/-- C9. For the same source texts and the same driver answers, the compile/link
code of `main` and the compile/link code of the `Shader` constructor issue the
same sequence of GL calls, end with the same program handle, print at the same
places of that sequence, and print each of the three diagnostics (vertex,
fragment, program) under the same condition, the status word being 0; the
constructor as a whole issues these GL calls on the texts it loaded. -/
theorem C9_inline_matches_helper (fs : String → FileState) (vp fp : String)
    (vsrc fsrc : String) (drv : GLDriver) :
    glCalls (Shader.build vsrc fsrc drv).2 = glCalls (main.shaderSection vsrc fsrc drv).2 ∧
    (Shader.build vsrc fsrc drv).1.ID = (main.shaderSection vsrc fsrc drv).1 ∧
    (Shader.build vsrc fsrc drv).2.map Call.isCout =
      (main.shaderSection vsrc fsrc drv).2.map Call.isCout ∧
    (Shader.build vsrc fsrc drv).2.filter
        (Call.isDiagnostic "ERROR::SHADER::VERTEX::COMPILATION_FAILED\n") =
      (main.shaderSection vsrc fsrc drv).2.filter
        (Call.isDiagnostic "ERROR::SHADER::VERTEX::COMPILATION_FAILED\n") ∧
    (Shader.build vsrc fsrc drv).2.filter
        (Call.isDiagnostic "ERROR::SHADER::FRAGMENT::COMPILATION_FAILED\n") =
      (main.shaderSection vsrc fsrc drv).2.filter
        (Call.isDiagnostic "ERROR::SHADER::FRAGMENT::COMPILATION_FAILED\n") ∧
    ((Shader.build vsrc fsrc drv).2.filter
        (Call.isDiagnostic "ERROR::SHADER::PROGRAM::LINKING_FAILED\n")).length =
      ((main.shaderSection vsrc fsrc drv).2.filter
        (Call.isDiagnostic "ERROR::SHADER::PROGRAM::LINKER_FAILED\n")).length ∧
    ((main.shaderSection vsrc fsrc drv).2.filter
        (Call.isDiagnostic "ERROR::SHADER::PROGRAM::LINKER_FAILED\n")).length =
      (if drv.linkStatus = 0 then 1 else 0) ∧
    glCalls (Shader.ctor fs vp fp drv).2 =
      glCalls (main.shaderSection (Shader.loadSources fs vp fp).1.1
        (Shader.loadSources fs vp fp).1.2 drv).2 ∧
    (Shader.ctor fs vp fp drv).1.ID =
      (main.shaderSection (Shader.loadSources fs vp fp).1.1
        (Shader.loadSources fs vp fp).1.2 drv).1 := by
  refine ⟨?_, rfl, ?_, ?_, ?_, ?_, ?_, ?_, rfl⟩
  iterate 6
    · by_cases hv : drv.vertexCompileStatus = 0 <;>
      by_cases hf : drv.fragmentCompileStatus = 0 <;>
      by_cases hl : drv.linkStatus = 0 <;>
      simp [Shader.build, main.shaderSection, glCalls, Call.isDiagnostic, Call.isCout,
        hv, hf, hl, List.filter_cons]
  · rcases loadSources_calls fs vp fp with h | h <;>
    by_cases hv : drv.vertexCompileStatus = 0 <;>
    by_cases hf : drv.fragmentCompileStatus = 0 <;>
    by_cases hl : drv.linkStatus = 0 <;>
    simp [Shader.ctor, Shader.build, main.shaderSection, glCalls, Call.isCout,
      h, hv, hf, hl, List.filter_cons]

/-! ## The render loop -/

theorem renderLoop_closed (window prog VAO : Nat) (frames : List FrameInput) :
    main.renderLoop window prog VAO frames true = some [Call.glfwWindowShouldClose window] := by
  cases frames <;> simp [main.renderLoop]

theorem renderLoop_cons_open (window prog VAO : Nat) (fr : FrameInput) (rest : List FrameInput) :
    main.renderLoop window prog VAO (fr :: rest) false =
      (main.renderLoop window prog VAO rest
          (runStmts (main.loopBody window prog VAO fr) false).1).map
        (fun t => Call.glfwWindowShouldClose window ::
          (runStmts (main.loopBody window prog VAO fr) false).2 ++ t) := by
  simp only [main.renderLoop, Bool.false_eq_true, if_false]
  cases main.renderLoop window prog VAO rest
    (runStmts (main.loopBody window prog VAO fr) false).1 <;> rfl

theorem loopBody_flag (window prog VAO : Nat) (fr : FrameInput) (c : Bool) :
    (runStmts (main.loopBody window prog VAO fr) c).1 =
      ((fr.escapePressed || c) || fr.closeRequested) := by
  cases h : fr.escapePressed <;>
    simp [main.loopBody, runStmts, processInput, Stmt.call, glfwPollEvents, h]

theorem loopBody_calls (window prog VAO : Nat) (fr : FrameInput) (c : Bool) :
    (runStmts (main.loopBody window prog VAO fr) c).2 =
      Call.glfwGetKey_ESCAPE window ::
        ((if fr.escapePressed then [Call.glfwSetWindowShouldClose window true] else []) ++
         [ Call.glClearColor (2/10) (3/10) (3/10) 1,
           Call.glClear_COLOR_BUFFER_BIT,
           Call.glUseProgram prog,
           Call.glBindVertexArray VAO,
           Call.glDrawArrays_TRIANGLES 0 3,
           Call.glfwSwapBuffers window,
           Call.glfwPollEvents ] ++
         fr.resizes.map (fun wh => Call.glViewport 0 0 wh.1 wh.2)) := by
  have hres : fr.resizes.flatMap (fun wh => framebuffer_size_callback window wh.1 wh.2) =
      fr.resizes.map (fun wh => Call.glViewport 0 0 wh.1 wh.2) := by
    induction fr.resizes with
    | nil => rfl
    | cons a l ih =>
      rw [List.flatMap_cons, ih]
      simp [framebuffer_size_callback]
  cases h : fr.escapePressed <;>
    simp [main.loopBody, runStmts, processInput, Stmt.call, glfwPollEvents, h, hres]

theorem renderLoop_isSome (window prog VAO : Nat) (frames : List FrameInput) (c : Bool) :
    (main.renderLoop window prog VAO frames c).isSome =
      (c || frames.any (fun fr => fr.escapePressed || fr.closeRequested)) := by
  induction frames generalizing c with
  | nil => cases c <;> simp [main.renderLoop]
  | cons fr rest ih =>
    cases c with
    | true => simp [renderLoop_closed]
    | false =>
      rw [renderLoop_cons_open]
      simp [ih, loopBody_flag]

theorem renderLoop_stops_after_escape (window prog VAO : Nat) (fr : FrameInput)
    (h : fr.escapePressed = true) (pre rest : List FrameInput) (c : Bool) :
    main.renderLoop window prog VAO (pre ++ fr :: rest) c =
      main.renderLoop window prog VAO (pre ++ [fr]) c := by
  induction pre generalizing c with
  | nil =>
    cases c with
    | true => simp [renderLoop_closed]
    | false =>
      simp only [List.nil_append]
      rw [renderLoop_cons_open, renderLoop_cons_open, loopBody_flag, h]
      simp [renderLoop_closed]
  | cons p ps ih =>
    cases c with
    | true => simp [renderLoop_closed]
    | false =>
      simp only [List.cons_append]
      rw [renderLoop_cons_open, renderLoop_cons_open, ih]

theorem renderLoop_calls (window prog VAO : Nat) (frames : List FrameInput) (c : Bool)
    (t : List Call) (h : main.renderLoop window prog VAO frames c = some t) :
    ∃ n, n ≤ frames.length ∧
      t = (frames.take n).flatMap (fun fr => Call.glfwWindowShouldClose window ::
            (runStmts (main.loopBody window prog VAO fr) false).2) ++
          [Call.glfwWindowShouldClose window] := by
  induction frames generalizing c t with
  | nil =>
    cases c with
    | true =>
      rw [renderLoop_closed] at h
      exact ⟨0, Nat.le_refl _, by simpa using h.symm⟩
    | false => simp [main.renderLoop] at h
  | cons fr rest ih =>
    cases c with
    | true =>
      rw [renderLoop_closed] at h
      exact ⟨0, Nat.zero_le _, by simpa using h.symm⟩
    | false =>
      rw [renderLoop_cons_open] at h
      cases h2 : main.renderLoop window prog VAO rest
          (runStmts (main.loopBody window prog VAO fr) false).1 with
      | none => simp [h2] at h
      | some t2 =>
        obtain ⟨n, hn, ht2⟩ := ih _ _ h2
        refine ⟨n + 1, by simpa using hn, ?_⟩
        rw [h2] at h
        have h3 : Call.glfwWindowShouldClose window ::
            (runStmts (main.loopBody window prog VAO fr) false).2 ++ t2 = t := by
          simpa using h
        rw [← h3, ht2]
        simp [List.take_succ_cons, List.flatMap_cons]

theorem renderLoop_no_cout (window prog VAO : Nat) (frames : List FrameInput) (c : Bool)
    (t : List Call) (h : main.renderLoop window prog VAO frames c = some t) :
    ∀ x ∈ t, x.isCout = false := by
  obtain ⟨n, _, ht⟩ := renderLoop_calls window prog VAO frames c t h
  intro x hx
  rw [ht] at hx
  simp only [List.mem_append, List.mem_flatMap, List.mem_cons, List.mem_singleton,
    List.not_mem_nil, or_false] at hx
  rcases hx with ⟨fr, _, hx | hx⟩ | hx
  · rw [hx]; rfl
  · rw [loopBody_calls] at hx
    simp only [List.mem_cons, List.mem_append, List.mem_map] at hx
    rcases hx with hx | (hx | hx) | ⟨wh, _, hx⟩
    · rw [hx]; rfl
    · split at hx
      · simp only [List.mem_singleton] at hx
        rw [hx]; rfl
      · simp at hx
    · simp only [List.not_mem_nil, or_false] at hx
      rcases hx with hx | hx | hx | hx | hx | hx | hx <;> (rw [hx]; rfl)
    · rw [← hx]; rfl
  · rw [hx]; rfl

theorem not_startupFailure_of_not_cout (x : Call) (h : x.isCout = false) :
    x.isStartupFailure = false := by
  cases x <;> simp_all [Call.isStartupFailure, Call.isDiagnostic, Call.isCout]

/-- C7. In every iteration in which escape is reported as pressed at the
`processInput` call, the close flag is true after that call and after each later
statement of the iteration, and the loop ends with that iteration: the frames
after it are never run, whatever came before.  When escape is not pressed,
`processInput` leaves the flag as it was. -/
theorem C7_escape_closes_loop (window prog VAO : Nat) (fr : FrameInput)
    (pre rest : List FrameInput) (c : Bool) (k : Nat)
    (hesc : fr.escapePressed = true) (hk : 1 ≤ k) :
    (main.loopBody window prog VAO fr).head? = some (processInput window true) ∧
    (processInput window true c).1 = true ∧
    (processInput window false c).1 = c ∧
    (runStmts ((main.loopBody window prog VAO fr).take k) c).1 = true ∧
    main.renderLoop window prog VAO (fr :: rest) false =
      some (Call.glfwWindowShouldClose window ::
        (runStmts (main.loopBody window prog VAO fr) false).2 ++
        [Call.glfwWindowShouldClose window]) ∧
    main.renderLoop window prog VAO (pre ++ fr :: rest) false =
      main.renderLoop window prog VAO (pre ++ [fr]) false ∧
    (main.renderLoop window prog VAO (pre ++ [fr]) false).isSome = true := by
  refine ⟨by simp [main.loopBody, hesc], by simp [processInput], by simp [processInput],
    ?_, ?_, renderLoop_stops_after_escape window prog VAO fr hesc pre rest false, ?_⟩
  · obtain ⟨j, rfl⟩ : ∃ j, k = j + 1 := ⟨k - 1, by omega⟩
    rcases j with _ | _ | _ | _ | _ | _ | _ | j <;>
      simp [main.loopBody, runStmts, processInput, Stmt.call, glfwPollEvents, hesc]
  · rw [renderLoop_cons_open, loopBody_flag, hesc]
    simp [renderLoop_closed]
  · rw [renderLoop_isSome]
    simp [hesc]

/-- Witness for C7: after an idle frame and an escape frame, two further frames
are never run. -/
theorem C7_escape_closes_loop_witness :
    escapeFrame.escapePressed = true ∧
    main.renderLoop 7 3 1 ([idleFrame] ++ escapeFrame :: [idleFrame, idleFrame]) false =
      main.renderLoop 7 3 1 ([idleFrame] ++ [escapeFrame]) false :=
  ⟨rfl, (C7_escape_closes_loop 7 3 1 escapeFrame [idleFrame] [idleFrame, idleFrame] false 1
    rfl (Nat.le_refl 1)).2.2.2.2.2.1⟩

/-! ## `main` -/

theorem main_run (env : Env) (window : Nat) (hw : env.window = some window)
    (hg : env.gladLoaded = true) :
    main env =
      (main.renderLoop window env.driver.program env.VAO env.frames false).map (fun t4 =>
        ((0 : Int),
         [Call.glfwInit,
          Call.glfwWindowHint .GLFW_CONTEXT_VERSION_MAJOR (.int 3),
          Call.glfwWindowHint .GLFW_CONTEXT_VERSION_MINOR (.int 3),
          Call.glfwWindowHint .GLFW_OPENGL_PROFILE .GLFW_OPENGL_CORE_PROFILE,
          Call.glfwCreateWindow SCR_WIDTH SCR_HEIGHT "LearnOpenGL"] ++
         [Call.glfwMakeContextCurrent window,
          Call.glfwSetFramebufferSizeCallback window,
          Call.gladLoadGLLoader] ++
         (main.shaderSection vertexShaderSource fragmentShaderSource env.driver).2 ++
         main.geometrySection env.VAO env.VBO ++ t4 ++
         [Call.glDeleteVertexArrays 1 [env.VAO],
          Call.glDeleteBuffers 1 [env.VBO],
          Call.glDeleteBuffers 1 [env.EBO],
          Call.glDeleteProgram env.driver.program,
          Call.glfwTerminate])) := by
  have hp : (main.shaderSection vertexShaderSource fragmentShaderSource env.driver).1 =
      env.driver.program := rfl
  simp only [main, hw, hg, hp]
  cases main.renderLoop window env.driver.program env.VAO env.frames false <;> rfl

theorem shaderSection_no_startupFailure (vsrc fsrc : String) (drv : GLDriver) :
    (main.shaderSection vsrc fsrc drv).2.any Call.isStartupFailure = false := by
  by_cases hv : drv.vertexCompileStatus = 0 <;>
  by_cases hf : drv.fragmentCompileStatus = 0 <;>
  by_cases hl : drv.linkStatus = 0 <;>
  simp [main.shaderSection, Call.isStartupFailure, Call.isDiagnostic, hv, hf, hl]

/-- C1. As a function of the outcomes of window creation and of function-pointer
loading: when glfwCreateWindow returns NULL or gladLoadGLLoader fails, `main`
returns -1 and has printed a startup failure message; in every other run it
prints no such message, returns 0 when the render loop ends (some frame has
escape pressed or a close request), and does not return while the loop runs. -/
theorem C1_main_exit_code (env : Env) :
    (main env).map (fun r => (r.1, r.2.any Call.isStartupFailure)) =
      if env.window = none ∨ env.gladLoaded = false then some (-1, true)
      else if env.frames.any (fun fr => fr.escapePressed || fr.closeRequested) then
        some (0, false)
      else none := by
  cases hw : env.window with
  | none => simp [main, hw, Call.isStartupFailure, Call.isDiagnostic]
  | some window =>
    cases hg : env.gladLoaded with
    | false => simp [main, hw, hg, Call.isStartupFailure, Call.isDiagnostic]
    | true =>
      rw [main_run env window hw hg]
      have hs := renderLoop_isSome window env.driver.program env.VAO env.frames false
      cases hr : main.renderLoop window env.driver.program env.VAO env.frames false with
      | none =>
        rw [hr] at hs
        have hs2 : env.frames.any (fun fr => fr.escapePressed || fr.closeRequested) = false := by
          simpa using hs.symm
        simp [hs2]
      | some t4 =>
        rw [hr] at hs
        have hs2 : env.frames.any (fun fr => fr.escapePressed || fr.closeRequested) = true := by
          simpa using hs.symm
        have h4 : t4.any Call.isStartupFailure = false := by
          rw [List.any_eq_false]
          intro x hx
          have := not_startupFailure_of_not_cout x
            (renderLoop_no_cout window env.driver.program env.VAO env.frames false t4 hr x hx)
          simp [this]
        have h2 := shaderSection_no_startupFailure vertexShaderSource fragmentShaderSource
          env.driver
        have h3 : (main.geometrySection env.VAO env.VBO).any Call.isStartupFailure = false := by
          simp [main.geometrySection, Call.isStartupFailure, Call.isDiagnostic]
        simp only [Option.map_some', List.any_append, h2, h3, h4, hs2]
        simp [Call.isStartupFailure, Call.isDiagnostic]

/-- C8. In every run of `main` that reaches the render loop and returns, the
calls between setup and teardown are, for each iteration that runs, the loop
test followed by exactly: the key query of `processInput` (and its
glfwSetWindowShouldClose when escape is pressed); glClearColor(0.2, 0.3, 0.3,
1.0); glClear; glUseProgram on the program built before the loop;
glBindVertexArray on the vertex array generated before the loop;
glDrawArrays(GL_TRIANGLES, 0, 3); glfwSwapBuffers; glfwPollEvents with the
viewport updates of the resize callback it dispatches.  Each iteration holds
exactly one draw call. -/
theorem C8_frame_sequence (env : Env) (r : Int × List Call)
    (h : main env = some r) (h0 : r.1 = 0) :
    ∃ window n, env.window = some window ∧ n ≤ env.frames.length ∧
      r.2 =
        [Call.glfwInit,
         Call.glfwWindowHint .GLFW_CONTEXT_VERSION_MAJOR (.int 3),
         Call.glfwWindowHint .GLFW_CONTEXT_VERSION_MINOR (.int 3),
         Call.glfwWindowHint .GLFW_OPENGL_PROFILE .GLFW_OPENGL_CORE_PROFILE,
         Call.glfwCreateWindow SCR_WIDTH SCR_HEIGHT "LearnOpenGL",
         Call.glfwMakeContextCurrent window,
         Call.glfwSetFramebufferSizeCallback window,
         Call.gladLoadGLLoader] ++
        (main.shaderSection vertexShaderSource fragmentShaderSource env.driver).2 ++
        main.geometrySection env.VAO env.VBO ++
        (env.frames.take n).flatMap (fun fr =>
          Call.glfwWindowShouldClose window ::
          Call.glfwGetKey_ESCAPE window ::
            ((if fr.escapePressed then [Call.glfwSetWindowShouldClose window true] else []) ++
             [ Call.glClearColor (2/10) (3/10) (3/10) 1,
               Call.glClear_COLOR_BUFFER_BIT,
               Call.glUseProgram env.driver.program,
               Call.glBindVertexArray env.VAO,
               Call.glDrawArrays_TRIANGLES 0 3,
               Call.glfwSwapBuffers window,
               Call.glfwPollEvents ] ++
             fr.resizes.map (fun wh => Call.glViewport 0 0 wh.1 wh.2))) ++
        [Call.glfwWindowShouldClose window,
         Call.glDeleteVertexArrays 1 [env.VAO],
         Call.glDeleteBuffers 1 [env.VBO],
         Call.glDeleteBuffers 1 [env.EBO],
         Call.glDeleteProgram env.driver.program,
         Call.glfwTerminate] ∧
      ∀ (fr : FrameInput) (c : Bool),
        drawCalls (runStmts (main.loopBody window env.driver.program env.VAO fr) c).2 =
          [(0, 3)] := by
  cases hw : env.window with
  | none =>
    simp only [main, hw] at h
    have : r.1 = -1 := by rw [← Option.some.inj h]
    omega
  | some window =>
    cases hg : env.gladLoaded with
    | false =>
      simp only [main, hw, hg] at h
      have : r.1 = -1 := by
        have h2 := Option.some.inj h
        rw [← h2]
      omega
    | true =>
      rw [main_run env window hw hg] at h
      cases hr : main.renderLoop window env.driver.program env.VAO env.frames false with
      | none => simp [hr] at h
      | some t4 =>
        obtain ⟨n, hn, ht4⟩ := renderLoop_calls window env.driver.program env.VAO env.frames
          false t4 hr
        rw [hr] at h
        have h2 := Option.some.inj h
        refine ⟨window, n, rfl, hn, ?_, ?_⟩
        · rw [← h2, ht4]
          simp only [loopBody_calls]
          simp
        · intro fr c
          rw [loopBody_calls]
          cases fr.escapePressed <;>
            simp [drawCalls, List.filterMap_cons, List.filterMap_append, List.filterMap_map]

/-- Witness for C8: the run `escapeRun` returns 0 and each of its iterations
holds one draw call of vertices 0, 1, 2. -/
theorem C8_frame_sequence_witness :
    ∃ r, main escapeRun = some r ∧ r.1 = 0 ∧
      ∃ window n, escapeRun.window = some window ∧ n ≤ escapeRun.frames.length ∧
        ∀ (fr : FrameInput) (c : Bool),
          drawCalls (runStmts (main.loopBody window escapeRun.driver.program escapeRun.VAO fr) c).2
            = [(0, 3)] := by
  obtain ⟨t4, ht4⟩ : ∃ t4, main.renderLoop 7 escapeRun.driver.program escapeRun.VAO
      escapeRun.frames false = some t4 := ⟨_, rfl⟩
  have hmain := main_run escapeRun 7 rfl rfl
  rw [ht4, Option.map_some'] at hmain
  obtain ⟨w, n, hw, hn, _, hd⟩ := C8_frame_sequence escapeRun _ hmain rfl
  exact ⟨_, hmain, rfl, w, n, hw, hn, hd⟩

/-! ## Geometry -/

/-- C5. The setup code of `main` uploads the 18 floats of `vertices` as a data
store of 72 bytes and enables two attributes of 3 floats with stride 24 bytes,
position at byte 0 and colour at byte 12; the loop body draws vertices 0, 1, 2.
For every vertex index i of that draw, the position attribute reads the floats
6i .. 6i+2 and the colour attribute the floats 6i+3 .. 6i+5, every read ends
within the 72 bytes, and the values fetched for the three vertices are
((0.5,-0.5,0),(1,0,0)), ((-0.5,-0.5,0),(0,1,0)), ((0,0.5,0),(0,0,1)). -/
theorem C5_vertex_fetch (window prog VAO VBO : Nat) (fr : FrameInput) (c : Bool) (i : Fin 3) :
    vertices.length = 18 ∧
    uploadedBuffers (main.geometrySection VAO VBO) = [(72, vertices)] ∧
    enabledAttribs (main.geometrySection VAO VBO) = [⟨0, 3, 24, 0⟩, ⟨1, 3, 24, 12⟩] ∧
    drawCalls (runStmts (main.loopBody window prog VAO fr) c).2 = [(0, 3)] ∧
    ((⟨0, 3, 24, 0⟩ : VertexAttrib).componentOffsets i).map (fun b => b / sizeof_float) =
      [6 * i.val, 6 * i.val + 1, 6 * i.val + 2] ∧
    ((⟨1, 3, 24, 12⟩ : VertexAttrib).componentOffsets i).map (fun b => b / sizeof_float) =
      [6 * i.val + 3, 6 * i.val + 4, 6 * i.val + 5] ∧
    (∀ b ∈ (⟨0, 3, 24, 0⟩ : VertexAttrib).componentOffsets i ++
        (⟨1, 3, 24, 12⟩ : VertexAttrib).componentOffsets i,
      b % sizeof_float = 0 ∧ b + sizeof_float ≤ 72) ∧
    fetchAttrib 72 vertices ⟨0, 3, 24, 0⟩ i =
      some [vertices.getD (6 * i.val) 0, vertices.getD (6 * i.val + 1) 0,
            vertices.getD (6 * i.val + 2) 0] ∧
    fetchAttrib 72 vertices ⟨1, 3, 24, 12⟩ i =
      some [vertices.getD (6 * i.val + 3) 0, vertices.getD (6 * i.val + 4) 0,
            vertices.getD (6 * i.val + 5) 0] ∧
    drawArraysFetch 0 3 [⟨0, 3, 24, 0⟩, ⟨1, 3, 24, 12⟩] 72 vertices =
      [ [some [1/2, -1/2, 0], some [1, 0, 0]],
        [some [-1/2, -1/2, 0], some [0, 1, 0]],
        [some [0, 1/2, 0], some [0, 0, 1]] ] := by
  refine ⟨rfl, rfl, ?_, ?_, ?_, ?_, ?_, ?_, ?_, ?_⟩
  · simp [enabledAttribs, main.geometrySection, sizeof_float, List.filterMap_cons,
      List.filter_cons]
  · rw [loopBody_calls]
    cases fr.escapePressed <;>
      simp [drawCalls, List.filterMap_cons, List.filterMap_append, List.filterMap_map]
  · fin_cases i <;> rfl
  · fin_cases i <;> rfl
  · fin_cases i <;> decide
  · fin_cases i <;> rfl
  · fin_cases i <;> rfl
  · rfl

/-! ## Teardown -/

/-- C6 (evaluation at the failing input). In the run `escapeRun`, `main` returns
0; the only names it generates are one vertex array and one buffer, yet its
release calls after the loop are glDeleteVertexArrays on VAO, glDeleteBuffers on
VBO, glDeleteBuffers on the uninitialised EBO and glDeleteProgram, followed by
glfwTerminate.  In the run `aliasedRun`, where the uninitialised EBO happens to
hold the name of VBO, that name is passed to glDeleteBuffers twice. -/
theorem C6_main_deletes_uninitialised_EBO :
    (main escapeRun).map (fun r => (r.1, r.2.filter Call.isGen, r.2.filter Call.isDelete,
        r.2.getLast?)) =
      some (0,
        [Call.glGenVertexArrays 1, Call.glGenBuffers 1],
        [Call.glDeleteShader 1, Call.glDeleteShader 2,
         Call.glDeleteVertexArrays 1 [1],
         Call.glDeleteBuffers 1 [1],
         Call.glDeleteBuffers 1 [3435973836],
         Call.glDeleteProgram 3],
        some Call.glfwTerminate) ∧
    (main aliasedRun).map (fun r => r.2.count (Call.glDeleteBuffers 1 [1])) = some 2 := by
  constructor
  · rfl
  · rfl

end Roguelike
